import Mathlib

/-!
Verification of the P2 Penrose tiling generator (penrose_p2.py).

The source's floating-point arithmetic is idealised as exact real
arithmetic: coordinates are `ℝ`, `math.cos`/`math.sin`/`math.sqrt` are the
real functions, and Python's `%` on reals is `mod360` below.  Python sets
of tiles become `Finset Tile`; the `NotImplementedError` raised by
`Tile.inflate` becomes an `Except String` error value.
-/

open Real

noncomputable section

open scoped Classical

namespace Penrose

/-- The golden ratio, `PHI = (1 + math.sqrt(5)) / 2` from the source. -/
def PHI : ℝ := (1 + Real.sqrt 5) / 2

/-- The kite template: clockwise (turn-angle, length-multiplier) pairs. -/
def KITE : List (ℝ × ℝ) := [(72, PHI), (72, 1), (144, 1), (72, PHI)]

/-- The dart template. -/
def DART : List (ℝ × ℝ) := [(72, PHI), (36, 1), (216, 1), (36, PHI)]

/-- A 2d vector, or point on a 2d plane (class Vec2). -/
@[ext]
structure Vec2 where
  x : ℝ
  y : ℝ

instance : DecidableEq Vec2 := Classical.decEq _

/-- Python `x % 360.0`: the representative of x modulo 360 in [0, 360). -/
def mod360 (x : ℝ) : ℝ := x - 360 * ⌊x / 360⌋

/-- math.radians: convert degrees to radians. -/
def radians (a : ℝ) : ℝ := a * (π / 180)

/-- Vec2.ZERO, the origin. -/
def Vec2.ZERO : Vec2 := ⟨0, 0⟩

/-- Vec2.__add__: element-wise addition. -/
def Vec2.add (a b : Vec2) : Vec2 := ⟨a.x + b.x, a.y + b.y⟩

/-- Vec2.__sub__: element-wise subtraction. -/
def Vec2.sub (a b : Vec2) : Vec2 := ⟨a.x - b.x, a.y - b.y⟩

/-- Vec2.__mul__: scale this vector by an amount. -/
def Vec2.smul (a : Vec2) (c : ℝ) : Vec2 := ⟨a.x * c, a.y * c⟩

/-- Vec2.offset: new point at the given angle (degrees) and distance. -/
def Vec2.offset (p : Vec2) (angle distance : ℝ) : Vec2 :=
  ⟨p.x + distance * Real.cos (radians angle),
   p.y + distance * Real.sin (radians angle)⟩

/-- Vec2.dot: dot product with the other vector. -/
def Vec2.dot (a b : Vec2) : ℝ := a.x * b.x + a.y * b.y

/-- Vec2.dist: distance to the other point. -/
def Vec2.dist (a b : Vec2) : ℝ :=
  Real.sqrt ((b.x - a.x) ^ 2 + (b.y - a.y) ^ 2)

/-- Vec2.length: magnitude, the distance from the origin. -/
def Vec2.length (a : Vec2) : ℝ := a.dist Vec2.ZERO

/-- Vec2.norm: normalize to length 1, or the zero vector for length 0. -/
def Vec2.norm (a : Vec2) : Vec2 :=
  if 0 < a.length then ⟨a.x / a.length, a.y / a.length⟩ else Vec2.ZERO

/-- A tile: shape template, anchor location, heading (degrees), scale. -/
structure Tile where
  shape : List (ℝ × ℝ)
  location : Vec2
  heading : ℝ
  scale : ℝ

instance : DecidableEq Tile := Classical.decEq _

/-- Tile.translate. -/
def Tile.translate (t : Tile) (dxy : Vec2) : Tile :=
  ⟨t.shape, t.location.add dxy, t.heading, t.scale⟩

/-- The loop body of Tile.points: turtle walk along the template edges. -/
def pointsFrom (heading : ℝ) (point : Vec2) (scale : ℝ) :
    List (ℝ × ℝ) → List Vec2
  | [] => []
  | (angle, distance) :: rest =>
    let h := mod360 (heading + (180 - angle))
    let q := point.offset h (distance * scale)
    q :: pointsFrom h q scale rest

/-- Tile.points: the generated (scaled and rotated) points of the tile,
the anchor first, then one point per template edge. -/
def Tile.points (t : Tile) : List Vec2 :=
  t.location :: pointsFrom t.heading t.location t.scale t.shape

/-- The helper aa from Tile.inflate: add two angles modulo 360. -/
def aa (a0 a1 : ℝ) : ℝ := mod360 (a0 + a1)

/-- The helper an from Tile.inflate: the walk heading angle at point n,
heading plus the sum of the first n template turn angles, modulo 360. -/
def Tile.an (t : Tile) (n : Nat) : ℝ :=
  mod360 (t.heading + (((t.shape.take n).map Prod.fst).sum))

/-- The dart tile constructor. -/
def dart (p : Vec2) (h s : ℝ) : Tile := ⟨DART, p, h, s⟩

/-- The kite tile constructor. -/
def kite (p : Vec2) (h s : ℝ) : Tile := ⟨KITE, p, h, s⟩

/-- Tile.inflate: replace a kite by two smaller kites and two darts, and
a dart by two smaller darts and a kite; any other shape is an error. -/
def Tile.inflate (t : Tile) : Except String (List Tile) :=
  let p := t.points
  let h := t.heading
  let s := t.scale / PHI
  if t.shape = KITE then
    Except.ok
      [dart (p.getD 0 Vec2.ZERO) (aa h (-36)) s,
       dart (p.getD 0 Vec2.ZERO) (aa h 36) s,
       kite (p.getD 1 Vec2.ZERO) (aa (t.an 1) 36) s,
       kite (p.getD 3 Vec2.ZERO) (aa (t.an 3) (-36)) s]
  else if t.shape = DART then
    Except.ok
      [kite (p.getD 0 Vec2.ZERO) h s,
       dart (p.getD 1 Vec2.ZERO) (aa (t.an 1) 72) s,
       dart (p.getD 3 Vec2.ZERO) (aa (t.an 3) (-108)) s]
  else
    Except.error "Can only inflate kites and darts"

/-- The list of children of a tile when Tile.inflate succeeds. -/
def Tile.childList (t : Tile) : List Tile :=
  match t.inflate with
  | Except.ok l => l
  | Except.error _ => []

/-- SUN: five kites coming together at a point. -/
def SUN : Finset Tile :=
  {kite Vec2.ZERO 0 150, kite Vec2.ZERO 72 150, kite Vec2.ZERO 144 150,
   kite Vec2.ZERO 216 150, kite Vec2.ZERO 288 150}

/-- STAR: five darts coming together at a point. -/
def STAR : Finset Tile :=
  {dart Vec2.ZERO 0 150, dart Vec2.ZERO 72 150, dart Vec2.ZERO 144 150,
   dart Vec2.ZERO 216 150, dart Vec2.ZERO 288 150}

/-- The driver inflate(tiles): the deduplicated union of the children of
every tile; an uninflatable tile aborts the whole round with its error. -/
def inflate (tiles : Finset Tile) : Except String (Finset Tile) :=
  if ∀ t ∈ tiles, ∃ l, t.inflate = Except.ok l then
    Except.ok (tiles.biUnion fun t => t.childList.toFinset)
  else
    Except.error "Can only inflate kites and darts"

/-- iterate(initial_tiles, iters): run the inflate operation iters times. -/
def iterate (initialTiles : Finset Tile) : Nat → Except String (Finset Tile)
  | 0 => Except.ok initialTiles
  | n + 1 => (iterate initialTiles n).bind inflate

/-- The n-fold Kleisli iterate of the driver, written as in the spec:
apply inflateAll exactly n times. -/
def inflateN : Nat → Finset Tile → Except String (Finset Tile)
  | 0, s => Except.ok s
  | n + 1, s => (inflate s).bind (inflateN n)

/-- A tile is good when its shape is one of the two templates and its
scale is strictly positive. -/
def GoodTile (t : Tile) : Prop :=
  (t.shape = KITE ∨ t.shape = DART) ∧ 0 < t.scale

/-! Arithmetic facts about mod360 and the degree-to-radian conversion. -/

theorem mod360_eq_self (x : ℝ) (h0 : 0 ≤ x) (h1 : x < 360) : mod360 x = x := by
  unfold mod360
  have hf : ⌊x / 360⌋ = 0 := by
    rw [Int.floor_eq_zero_iff, Set.mem_Ico]
    refine ⟨by positivity, ?_⟩
    rw [div_lt_one (by norm_num : (0:ℝ) < 360)]
    exact h1
  rw [hf]
  norm_num

theorem mod360_eq_sub (x : ℝ) (h0 : 360 ≤ x) (h1 : x < 720) : mod360 x = x - 360 := by
  unfold mod360
  have hf : ⌊x / 360⌋ = 1 := by
    rw [Int.floor_eq_iff]
    push_cast
    constructor
    · rw [le_div_iff (by norm_num : (0:ℝ) < 360)]
      linarith
    · rw [div_lt_iff (by norm_num : (0:ℝ) < 360)]
      linarith
  rw [hf]
  push_cast
  ring

theorem mod360_eq_add (x : ℝ) (h0 : -360 ≤ x) (h1 : x < 0) : mod360 x = x + 360 := by
  unfold mod360
  have hf : ⌊x / 360⌋ = -1 := by
    rw [Int.floor_eq_iff]
    push_cast
    constructor
    · rw [le_div_iff (by norm_num : (0:ℝ) < 360)]
      linarith
    · rw [div_lt_iff (by norm_num : (0:ℝ) < 360)]
      linarith
  rw [hf]
  push_cast
  ring

theorem mod360_mod360_add (a b : ℝ) : mod360 (mod360 a + b) = mod360 (a + b) := by
  unfold mod360
  have h1 : (a - 360 * (⌊a / 360⌋ : ℝ) + b) / 360 = (a + b) / 360 - (⌊a / 360⌋ : ℤ) := by
    push_cast
    ring
  rw [h1, Int.floor_sub_int]
  push_cast
  ring

theorem cos_radians_mod360 (a : ℝ) :
    Real.cos (radians (mod360 a)) = Real.cos (radians a) := by
  unfold mod360 radians
  have h : (a - 360 * (⌊a / 360⌋ : ℝ)) * (π / 180) =
      a * (π / 180) + (-⌊a / 360⌋ : ℤ) * (2 * π) := by
    push_cast
    ring
  rw [h, Real.cos_add_int_mul_two_pi]

theorem sin_radians_mod360 (a : ℝ) :
    Real.sin (radians (mod360 a)) = Real.sin (radians a) := by
  unfold mod360 radians
  have h : (a - 360 * (⌊a / 360⌋ : ℝ)) * (π / 180) =
      a * (π / 180) + (-⌊a / 360⌋ : ℤ) * (2 * π) := by
    push_cast
    ring
  rw [h, Real.sin_add_int_mul_two_pi]

theorem cos_radians_add_360 (a : ℝ) :
    Real.cos (radians (a + 360)) = Real.cos (radians a) := by
  unfold radians
  have h : (a + 360) * (π / 180) = a * (π / 180) + ((1:ℤ) : ℝ) * (2 * π) := by
    push_cast
    ring
  rw [h, Real.cos_add_int_mul_two_pi]

theorem sin_radians_add_360 (a : ℝ) :
    Real.sin (radians (a + 360)) = Real.sin (radians a) := by
  unfold radians
  have h : (a + 360) * (π / 180) = a * (π / 180) + ((1:ℤ) : ℝ) * (2 * π) := by
    push_cast
    ring
  rw [h, Real.sin_add_int_mul_two_pi]

/-! Exact values at the multiples of 36 degrees that the templates use. -/

theorem sqrt5_sq : Real.sqrt 5 ^ 2 = 5 := Real.sq_sqrt (by norm_num)

theorem PHI_pos : 0 < PHI := by
  unfold PHI
  have := Real.sqrt_nonneg 5
  linarith

theorem PHI_sq : PHI ^ 2 = PHI + 1 := by
  unfold PHI
  linear_combination sqrt5_sq / 4

theorem cos_deg36 : Real.cos (π / 5) = PHI / 2 := by
  rw [Real.cos_pi_div_five]
  unfold PHI
  ring

theorem cos_deg72 : Real.cos (2 * π / 5) = (PHI - 1) / 2 := by
  have h : (2:ℝ) * π / 5 = 2 * (π / 5) := by ring
  rw [h, Real.cos_two_mul, cos_deg36]
  linear_combination PHI_sq / 2

theorem sin_deg72 : Real.sin (2 * π / 5) = PHI * Real.sin (π / 5) := by
  have h : (2:ℝ) * π / 5 = 2 * (π / 5) := by ring
  rw [h, Real.sin_two_mul, cos_deg36]
  ring

theorem cos_deg108 : Real.cos (3 * π / 5) = -((PHI - 1) / 2) := by
  have h : (3:ℝ) * π / 5 = π - 2 * π / 5 := by ring
  rw [h, Real.cos_pi_sub, cos_deg72]

theorem sin_deg108 : Real.sin (3 * π / 5) = PHI * Real.sin (π / 5) := by
  have h : (3:ℝ) * π / 5 = π - 2 * π / 5 := by ring
  rw [h, Real.sin_pi_sub, sin_deg72]

theorem cos_deg216 : Real.cos (6 * π / 5) = -(PHI / 2) := by
  have h : (6:ℝ) * π / 5 = π / 5 + π := by ring
  rw [h, Real.cos_add_pi, cos_deg36]

theorem sin_deg216 : Real.sin (6 * π / 5) = -Real.sin (π / 5) := by
  have h : (6:ℝ) * π / 5 = π / 5 + π := by ring
  rw [h, Real.sin_add_pi]

theorem cos_deg252 : Real.cos (7 * π / 5) = -((PHI - 1) / 2) := by
  have h : (7:ℝ) * π / 5 = 2 * π / 5 + π := by ring
  rw [h, Real.cos_add_pi, cos_deg72]

theorem sin_deg252 : Real.sin (7 * π / 5) = -(PHI * Real.sin (π / 5)) := by
  have h : (7:ℝ) * π / 5 = 2 * π / 5 + π := by ring
  rw [h, Real.sin_add_pi, sin_deg72]

/-- The golden-ratio closure identity behind both templates: the four
edge direction vectors of a walk, weighted φ, 1, 1, φ, sum to zero
(x components). -/
theorem kite_cos_sum (x : ℝ) :
    PHI * Real.cos (x + 3 * π / 5) + Real.cos (x + 6 * π / 5) +
        Real.cos (x + 7 * π / 5) + PHI * Real.cos x = 0 := by
  rw [Real.cos_add, Real.cos_add, Real.cos_add, cos_deg108, sin_deg108,
    cos_deg216, sin_deg216, cos_deg252, sin_deg252]
  linear_combination (-(Real.cos x) / 2 - Real.sin x * Real.sin (π / 5)) * PHI_sq

/-- The y components of the closure identity. -/
theorem kite_sin_sum (x : ℝ) :
    PHI * Real.sin (x + 3 * π / 5) + Real.sin (x + 6 * π / 5) +
        Real.sin (x + 7 * π / 5) + PHI * Real.sin x = 0 := by
  rw [Real.sin_add, Real.sin_add, Real.sin_add, cos_deg108, sin_deg108,
    cos_deg216, sin_deg216, cos_deg252, sin_deg252]
  linear_combination (-(Real.sin x) / 2 + Real.cos x * Real.sin (π / 5)) * PHI_sq

/-! Basic structural lemmas about the two templates and the walk. -/

theorem KITE_ne_DART : KITE ≠ DART := by
  intro h
  simp only [KITE, DART, List.cons.injEq, Prod.mk.injEq] at h
  norm_num at h

theorem pointsFrom_length (h : ℝ) (p : Vec2) (s : ℝ) (l : List (ℝ × ℝ)) :
    (pointsFrom h p s l).length = l.length := by
  induction l generalizing h p with
  | nil => rfl
  | cons a rest ih =>
    cases a
    simp only [pointsFrom, List.length_cons, ih]

theorem points_length (t : Tile) : t.points.length = t.shape.length + 1 := by
  simp only [Tile.points, List.length_cons, pointsFrom_length]

theorem points_getD0 (t : Tile) : t.points.getD 0 Vec2.ZERO = t.location := rfl

theorem radians_add_108 (a : ℝ) : radians (a + 108) = radians a + 3 * π / 5 := by
  unfold radians
  ring

theorem radians_add_216 (a : ℝ) : radians (a + 216) = radians a + 6 * π / 5 := by
  unfold radians
  ring

theorem radians_add_252 (a : ℝ) : radians (a + 252) = radians a + 7 * π / 5 := by
  unfold radians
  ring

theorem radians_add_180 (a : ℝ) : radians (a + 180) = radians a + π := by
  unfold radians
  ring

theorem radians_add_360 (a : ℝ) : radians (a + 360) = radians a + 2 * π := by
  unfold radians
  ring

/-- The second yielded point of a kite walk: offset from the anchor at
heading + 108 degrees, distance φ times the scale. -/
theorem kite_point1 (t : Tile) (hk : t.shape = KITE) :
    t.points.getD 1 Vec2.ZERO =
      t.location.offset (mod360 (t.heading + 108)) (PHI * t.scale) := by
  simp only [Tile.points, hk, KITE, pointsFrom, List.getD_cons_succ,
    List.getD_cons_zero]
  congr 2
  ring

/-- The fourth yielded point of a kite walk collapses to a single offset
from the anchor: distance φ·scale at heading + 180 degrees. -/
theorem kite_point3 (t : Tile) (hk : t.shape = KITE) :
    t.points.getD 3 Vec2.ZERO =
      t.location.offset (mod360 (t.heading + 180)) (PHI * t.scale) := by
  have hm3 : mod360 (mod360 (mod360 (t.heading + (180 - 72)) + (180 - 72)) +
      (180 - 144)) = mod360 (t.heading + 252) := by
    rw [mod360_mod360_add, add_assoc, mod360_mod360_add]
    congr 1
    ring
  have hm2 : mod360 (mod360 (t.heading + (180 - 72)) + (180 - 72)) =
      mod360 (t.heading + 216) := by
    rw [mod360_mod360_add]
    congr 1
    ring
  have hm1 : mod360 (t.heading + (180 - 72)) = mod360 (t.heading + 108) := by
    congr 1
    ring
  simp only [Tile.points, hk, KITE, pointsFrom, List.getD_cons_succ,
    List.getD_cons_zero]
  rw [hm3, hm2, hm1]
  simp only [Vec2.offset]
  rw [Vec2.mk.injEq]
  constructor
  · simp only [cos_radians_mod360, radians_add_108, radians_add_216,
      radians_add_252, radians_add_180, Real.cos_add_pi]
    linear_combination t.scale * kite_cos_sum (radians t.heading)
  · simp only [sin_radians_mod360, radians_add_108, radians_add_216,
      radians_add_252, radians_add_180, Real.sin_add_pi]
    linear_combination t.scale * kite_sin_sum (radians t.heading)

/-- The final yielded point of a kite walk returns exactly to the anchor. -/
theorem kite_point4 (t : Tile) (hk : t.shape = KITE) :
    t.points.getD 4 Vec2.ZERO = t.location := by
  have hm4 : mod360 (mod360 (mod360 (mod360 (t.heading + (180 - 72)) +
      (180 - 72)) + (180 - 144)) + (180 - 72)) = mod360 (t.heading + 360) := by
    rw [mod360_mod360_add, add_assoc, mod360_mod360_add, add_assoc,
      mod360_mod360_add]
    congr 1
    ring
  have hm3 : mod360 (mod360 (mod360 (t.heading + (180 - 72)) + (180 - 72)) +
      (180 - 144)) = mod360 (t.heading + 252) := by
    rw [mod360_mod360_add, add_assoc, mod360_mod360_add]
    congr 1
    ring
  have hm2 : mod360 (mod360 (t.heading + (180 - 72)) + (180 - 72)) =
      mod360 (t.heading + 216) := by
    rw [mod360_mod360_add]
    congr 1
    ring
  have hm1 : mod360 (t.heading + (180 - 72)) = mod360 (t.heading + 108) := by
    congr 1
    ring
  simp only [Tile.points, hk, KITE, pointsFrom, List.getD_cons_succ,
    List.getD_cons_zero]
  rw [hm4, hm3, hm2, hm1]
  simp only [Vec2.offset]
  ext
  · simp only [cos_radians_mod360, cos_radians_add_360, radians_add_108,
      radians_add_216, radians_add_252]
    linear_combination t.scale * kite_cos_sum (radians t.heading)
  · simp only [sin_radians_mod360, sin_radians_add_360, radians_add_108,
      radians_add_216, radians_add_252]
    linear_combination t.scale * kite_sin_sum (radians t.heading)

/-- The final yielded point of a dart walk returns exactly to the anchor. -/
theorem dart_point4 (t : Tile) (hd : t.shape = DART) :
    t.points.getD 4 Vec2.ZERO = t.location := by
  have hm4 : mod360 (mod360 (mod360 (mod360 (t.heading + (180 - 72)) +
      (180 - 36)) + (180 - 216)) + (180 - 36)) = mod360 (t.heading + 360) := by
    rw [mod360_mod360_add, add_assoc, mod360_mod360_add, add_assoc,
      mod360_mod360_add]
    congr 1
    ring
  have hm3 : mod360 (mod360 (mod360 (t.heading + (180 - 72)) + (180 - 36)) +
      (180 - 216)) = mod360 (t.heading + 216) := by
    rw [mod360_mod360_add, add_assoc, mod360_mod360_add]
    congr 1
    ring
  have hm2 : mod360 (mod360 (t.heading + (180 - 72)) + (180 - 36)) =
      mod360 (t.heading + 252) := by
    rw [mod360_mod360_add]
    congr 1
    ring
  have hm1 : mod360 (t.heading + (180 - 72)) = mod360 (t.heading + 108) := by
    congr 1
    ring
  simp only [Tile.points, hd, DART, pointsFrom, List.getD_cons_succ,
    List.getD_cons_zero]
  rw [hm4, hm3, hm2, hm1]
  simp only [Vec2.offset]
  ext
  · simp only [cos_radians_mod360, cos_radians_add_360, radians_add_108,
      radians_add_216, radians_add_252]
    linear_combination t.scale * kite_cos_sum (radians t.heading)
  · simp only [sin_radians_mod360, sin_radians_add_360, radians_add_108,
      radians_add_216, radians_add_252]
    linear_combination t.scale * kite_sin_sum (radians t.heading)

/-- C3 counterexample: the vertex generator of the concrete tile
kite((0,0), heading 0, scale 1) yields five points in total, not four. -/
theorem points_count_cex :
    (kite Vec2.ZERO 0 1).shape = KITE ∧
      (kite Vec2.ZERO 0 1).points.length = 5 ∧
      (kite Vec2.ZERO 0 1).points.length ≠ 4 := by
  refine ⟨rfl, ?_, ?_⟩ <;> simp [points_length, kite, KITE]

/-- C3 (amended): for every kite or dart tile the vertex walk yields
exactly 5 points in total — the anchor first, then one point per template
edge — and the fifth point coincides exactly (in real arithmetic) with
the anchor, closing the polygon. -/
theorem points_walk_spec (t : Tile) (h : t.shape = KITE ∨ t.shape = DART) :
    t.points.length = 5 ∧ t.points.getD 0 Vec2.ZERO = t.location ∧
      t.points.getD 4 Vec2.ZERO = t.location := by
  rcases h with hk | hd
  · exact ⟨by simp [points_length, hk, KITE], points_getD0 t, kite_point4 t hk⟩
  · exact ⟨by simp [points_length, hd, DART], points_getD0 t, dart_point4 t hd⟩

/-- C3 witness: the amended walk facts evaluated at kite((0,0), 0, 1). -/
theorem points_walk_spec_witness :
    (kite Vec2.ZERO 0 1).points.length = 5 ∧
      (kite Vec2.ZERO 0 1).points.getD 0 Vec2.ZERO =
        (kite Vec2.ZERO 0 1).location ∧
      (kite Vec2.ZERO 0 1).points.getD 4 Vec2.ZERO =
        (kite Vec2.ZERO 0 1).location :=
  points_walk_spec (kite Vec2.ZERO 0 1) (Or.inl rfl)

theorem inflate_kite_children (t : Tile) (hk : t.shape = KITE) :
    t.inflate = Except.ok
      [dart (t.points.getD 0 Vec2.ZERO) (mod360 (t.heading - 36)) (t.scale / PHI),
       dart (t.points.getD 0 Vec2.ZERO) (mod360 (t.heading + 36)) (t.scale / PHI),
       kite (t.points.getD 1 Vec2.ZERO) (mod360 (t.an 1 + 36)) (t.scale / PHI),
       kite (t.points.getD 3 Vec2.ZERO) (mod360 (t.an 3 - 36)) (t.scale / PHI)] := by
  simp only [Tile.inflate, aa]
  rw [if_pos hk]
  norm_num [sub_eq_add_neg]

theorem inflate_dart_children (t : Tile) (hd : t.shape = DART) :
    t.inflate = Except.ok
      [kite (t.points.getD 0 Vec2.ZERO) t.heading (t.scale / PHI),
       dart (t.points.getD 1 Vec2.ZERO) (mod360 (t.an 1 + 72)) (t.scale / PHI),
       dart (t.points.getD 3 Vec2.ZERO) (mod360 (t.an 3 - 108)) (t.scale / PHI)] := by
  have hnk : ¬ t.shape = KITE := by
    rw [hd]; exact fun h => KITE_ne_DART h.symm
  simp only [Tile.inflate, aa]
  rw [if_neg hnk, if_pos hd]
  norm_num [sub_eq_add_neg]

theorem inflate_error_of_bad_shape (t : Tile) (hk : t.shape ≠ KITE)
    (hd : t.shape ≠ DART) :
    t.inflate = Except.error "Can only inflate kites and darts" := by
  simp only [Tile.inflate]
  rw [if_neg hk, if_neg hd]

/-- C1: a kite substitutes into exactly four children — two darts at p[0]
with headings (h ∓ 36) mod 360, a kite at p[1] with heading
(headingAt 1 + 36) mod 360, and a kite at p[3] with heading
(headingAt 3 − 36) mod 360, each with scale = scale / φ. -/
theorem inflate_kite_rule (t : Tile) (hk : t.shape = KITE) :
    t.inflate = Except.ok
      [dart (t.points.getD 0 Vec2.ZERO) (mod360 (t.heading - 36)) (t.scale / PHI),
       dart (t.points.getD 0 Vec2.ZERO) (mod360 (t.heading + 36)) (t.scale / PHI),
       kite (t.points.getD 1 Vec2.ZERO) (mod360 (t.an 1 + 36)) (t.scale / PHI),
       kite (t.points.getD 3 Vec2.ZERO) (mod360 (t.an 3 - 36)) (t.scale / PHI)] :=
  inflate_kite_children t hk

/-- C1 witness: the concrete scenario substitute(kite((0,0), 0, 1)) with
its four children of scale 1/φ. -/
theorem inflate_kite_rule_witness :
    (kite Vec2.ZERO 0 1).inflate = Except.ok
      [dart ((kite Vec2.ZERO 0 1).points.getD 0 Vec2.ZERO) (mod360 ((0:ℝ) - 36)) (1 / PHI),
       dart ((kite Vec2.ZERO 0 1).points.getD 0 Vec2.ZERO) (mod360 ((0:ℝ) + 36)) (1 / PHI),
       kite ((kite Vec2.ZERO 0 1).points.getD 1 Vec2.ZERO)
         (mod360 ((kite Vec2.ZERO 0 1).an 1 + 36)) (1 / PHI),
       kite ((kite Vec2.ZERO 0 1).points.getD 3 Vec2.ZERO)
         (mod360 ((kite Vec2.ZERO 0 1).an 3 - 36)) (1 / PHI)] :=
  inflate_kite_rule (kite Vec2.ZERO 0 1) rfl

/-- C2: a dart substitutes into exactly three children — a kite at p[0]
with heading h, a dart at p[1] with heading (headingAt 1 + 72) mod 360,
and a dart at p[3] with heading (headingAt 3 − 108) mod 360, each with
scale = scale / φ. -/
theorem inflate_dart_rule (t : Tile) (hd : t.shape = DART) :
    t.inflate = Except.ok
      [kite (t.points.getD 0 Vec2.ZERO) t.heading (t.scale / PHI),
       dart (t.points.getD 1 Vec2.ZERO) (mod360 (t.an 1 + 72)) (t.scale / PHI),
       dart (t.points.getD 3 Vec2.ZERO) (mod360 (t.an 3 - 108)) (t.scale / PHI)] :=
  inflate_dart_children t hd

/-- C2 witness: the dart rule evaluated at dart((0,0), 0, 1). -/
theorem inflate_dart_rule_witness :
    (dart Vec2.ZERO 0 1).inflate = Except.ok
      [kite ((dart Vec2.ZERO 0 1).points.getD 0 Vec2.ZERO) 0 (1 / PHI),
       dart ((dart Vec2.ZERO 0 1).points.getD 1 Vec2.ZERO)
         (mod360 ((dart Vec2.ZERO 0 1).an 1 + 72)) (1 / PHI),
       dart ((dart Vec2.ZERO 0 1).points.getD 3 Vec2.ZERO)
         (mod360 ((dart Vec2.ZERO 0 1).an 3 - 108)) (1 / PHI)] :=
  inflate_dart_rule (dart Vec2.ZERO 0 1) rfl

/-- C5: every child produced by a successful substitution has scale
exactly equal to the parent scale divided by φ. -/
theorem inflate_scale_contraction (t : Tile) (l : List Tile)
    (hl : t.inflate = Except.ok l) :
    ∀ c ∈ l, c.scale = t.scale / PHI := by
  by_cases hk : t.shape = KITE
  · rw [inflate_kite_children t hk] at hl
    injection hl with hl
    subst hl
    intro c hc
    simp only [List.mem_cons, List.not_mem_nil, or_false] at hc
    rcases hc with h | h | h | h <;> subst h <;> rfl
  · by_cases hd : t.shape = DART
    · rw [inflate_dart_children t hd] at hl
      injection hl with hl
      subst hl
      intro c hc
      simp only [List.mem_cons, List.not_mem_nil, or_false] at hc
      rcases hc with h | h | h <;> subst h <;> rfl
    · rw [inflate_error_of_bad_shape t hk hd] at hl
      cases hl

/-- C5 witness: the first child of kite((0,0), 0, 1) has scale 1/φ. -/
theorem inflate_scale_contraction_witness :
    (dart ((kite Vec2.ZERO 0 1).points.getD 0 Vec2.ZERO) (mod360 ((0:ℝ) - 36))
        (1 / PHI)).scale = (kite Vec2.ZERO 0 1).scale / PHI :=
  inflate_scale_contraction (kite Vec2.ZERO 0 1) _
    (inflate_kite_children (kite Vec2.ZERO 0 1) rfl) _ (List.mem_cons_self _ _)

/-- C7: substitution fails with an error on any tile whose shape is
neither the kite template nor the dart template, and succeeds on every
kite- or dart-shaped tile. -/
theorem inflate_shape_guard :
    (∀ t : Tile, t.shape ≠ KITE → t.shape ≠ DART →
        t.inflate = Except.error "Can only inflate kites and darts") ∧
    (∀ t : Tile, t.shape = KITE ∨ t.shape = DART →
        ∃ l, t.inflate = Except.ok l) := by
  constructor
  · exact inflate_error_of_bad_shape
  · intro t h
    rcases h with hk | hd
    · exact ⟨_, inflate_kite_children t hk⟩
    · exact ⟨_, inflate_dart_children t hd⟩

/-- C7 witness: a concrete empty-template tile errors, a concrete kite
succeeds. -/
theorem inflate_shape_guard_witness :
    (Tile.mk [] Vec2.ZERO 0 1).inflate =
        Except.error "Can only inflate kites and darts" ∧
    ∃ l, (kite Vec2.ZERO 0 1).inflate = Except.ok l :=
  ⟨inflate_shape_guard.1 (Tile.mk [] Vec2.ZERO 0 1)
      (by simp [KITE]) (by simp [DART]),
   inflate_shape_guard.2 (kite Vec2.ZERO 0 1) (Or.inl rfl)⟩

/-- C8: the Tile constructor performs no validation at all — it stores a
non-positive scale unchanged, so construction with scale ≤ 0 produces a
Tile value instead of failing. -/
theorem tile_mk_no_scale_check :
    (Tile.mk KITE Vec2.ZERO 0 (-1)).scale = -1 ∧
      ¬ 0 < (Tile.mk KITE Vec2.ZERO 0 (-1)).scale := by
  refine ⟨rfl, ?_⟩
  show ¬ (0:ℝ) < -1
  norm_num

/-- C9: normalize returns the zero vector on a zero-magnitude input,
and otherwise returns (x/|v|, y/|v|), a vector of unit length. -/
theorem norm_spec (v : Vec2) :
    (v.length = 0 → v.norm = Vec2.ZERO) ∧
    (v.length ≠ 0 →
      v.norm = Vec2.mk (v.x / v.length) (v.y / v.length) ∧
        v.norm.length = 1) := by
  have hnn : 0 ≤ v.length := Real.sqrt_nonneg _
  constructor
  · intro h0
    unfold Vec2.norm
    rw [if_neg]
    rw [h0]
    exact lt_irrefl 0
  · intro hne
    have hpos : 0 < v.length := lt_of_le_of_ne hnn (Ne.symm hne)
    have hnorm : v.norm = Vec2.mk (v.x / v.length) (v.y / v.length) := by
      unfold Vec2.norm
      rw [if_pos hpos]
    refine ⟨hnorm, ?_⟩
    rw [hnorm]
    have hsq : v.length ^ 2 = v.x ^ 2 + v.y ^ 2 := by
      simp only [Vec2.length, Vec2.dist, Vec2.ZERO]
      rw [Real.sq_sqrt (by positivity)]
      ring
    have harg : (0 - v.x / v.length) ^ 2 + (0 - v.y / v.length) ^ 2 =
        (v.x ^ 2 + v.y ^ 2) / v.length ^ 2 := by
      field_simp
    show Real.sqrt ((0 - v.x / v.length) ^ 2 + (0 - v.y / v.length) ^ 2) = 1
    rw [harg, ← hsq, div_self (pow_ne_zero 2 hne), Real.sqrt_one]

/-- C9 witness: normalize at the zero vector and at (1, 0). -/
theorem norm_spec_witness :
    Vec2.ZERO.norm = Vec2.ZERO ∧ (Vec2.mk 1 0).norm.length = 1 :=
  ⟨(norm_spec Vec2.ZERO).1
      (by norm_num [Vec2.length, Vec2.dist, Vec2.ZERO]),
   ((norm_spec (Vec2.mk 1 0)).2
      (by norm_num [Vec2.length, Vec2.dist, Vec2.ZERO])).2⟩

/-- C6 helper: the two ways of composing n rounds agree. -/
theorem inflateN_bind (n : Nat) (s : Finset Tile) :
    (inflateN n s).bind inflate = (inflate s).bind (inflateN n) := by
  induction n generalizing s with
  | zero =>
    show (inflate s : Except String (Finset Tile)) = (inflate s).bind fun r => Except.ok r
    cases inflate s <;> rfl
  | succ n ih =>
    show ((inflate s).bind (inflateN n)).bind inflate =
      (inflate s).bind fun r => (inflate r).bind (inflateN n)
    cases inflate s with
    | error e => rfl
    | ok a => exact ih a

/-! Machinery for the concrete SUN round: numeral values of mod360,
injectivity of direction vectors 72 degrees apart, and the explicit
child lists of the five seed kites. -/

theorem mod360_mod360_sub (a b : ℝ) : mod360 (mod360 a - b) = mod360 (a - b) := by
  rw [sub_eq_add_neg, sub_eq_add_neg, mod360_mod360_add]

theorem mod360_neg36 : mod360 (-36 : ℝ) = 324 := by
  rw [mod360_eq_add (-36) (by norm_num) (by norm_num)]
  norm_num

theorem mod360_36 : mod360 (36 : ℝ) = 36 :=
  mod360_eq_self 36 (by norm_num) (by norm_num)

theorem mod360_108 : mod360 (108 : ℝ) = 108 :=
  mod360_eq_self 108 (by norm_num) (by norm_num)

theorem mod360_180 : mod360 (180 : ℝ) = 180 :=
  mod360_eq_self 180 (by norm_num) (by norm_num)

theorem mod360_252 : mod360 (252 : ℝ) = 252 :=
  mod360_eq_self 252 (by norm_num) (by norm_num)

theorem mod360_324 : mod360 (324 : ℝ) = 324 :=
  mod360_eq_self 324 (by norm_num) (by norm_num)

theorem mod360_396 : mod360 (396 : ℝ) = 36 := by
  rw [mod360_eq_sub 396 (by norm_num) (by norm_num)]
  norm_num

theorem mod360_468 : mod360 (468 : ℝ) = 108 := by
  rw [mod360_eq_sub 468 (by norm_num) (by norm_num)]
  norm_num

theorem mod360_540 : mod360 (540 : ℝ) = 180 := by
  rw [mod360_eq_sub 540 (by norm_num) (by norm_num)]
  norm_num

/-- Two equal unit direction vectors cannot be 72 degrees apart. -/
theorem uvec_injective_step (x : ℝ)
    (hc : Real.cos x = Real.cos (x + 2 * π / 5))
    (hs : Real.sin x = Real.sin (x + 2 * π / 5)) : False := by
  rw [Real.cos_add] at hc
  rw [Real.sin_add] at hs
  have key : Real.sin x ^ 2 + Real.cos x ^ 2 =
      (Real.sin x ^ 2 + Real.cos x ^ 2) * Real.cos (2 * π / 5) := by
    linear_combination Real.cos x * hc + Real.sin x * hs
  rw [Real.sin_sq_add_cos_sq, one_mul] at key
  rw [cos_deg72] at key
  unfold PHI at key
  have h5 : Real.sqrt 5 = 5 := by linarith
  have := sqrt5_sq
  rw [h5] at this
  norm_num at this

/-- Offsetting the same point by the same distance at headings 72
degrees apart gives two different points (for a nonzero distance). -/
theorem offset_ne_72 (p : Vec2) (θ d : ℝ) (hd : d ≠ 0) :
    p.offset θ d ≠ p.offset (θ + 72) d := by
  intro h
  have h1 : radians (θ + 72) = radians θ + 2 * π / 5 := by
    unfold radians
    ring
  rw [Vec2.offset, Vec2.offset, Vec2.mk.injEq, h1] at h
  exact uvec_injective_step (radians θ)
    (mul_left_cancel₀ hd (add_left_cancel h.1))
    (mul_left_cancel₀ hd (add_left_cancel h.2))

theorem offset_add_360 (p : Vec2) (θ d : ℝ) :
    p.offset (θ + 360) d = p.offset θ d := by
  unfold Vec2.offset
  rw [cos_radians_add_360, sin_radians_add_360]

theorem PHI150_ne : PHI * 150 ≠ 0 :=
  (mul_pos PHI_pos (by norm_num : (0:ℝ) < 150)).ne'

theorem offPhi_ne (θ : ℝ) :
    Vec2.ZERO.offset θ (PHI * 150) ≠ Vec2.ZERO.offset (θ + 72) (PHI * 150) :=
  offset_ne_72 _ _ _ PHI150_ne

theorem kloc_108_36 :
    Vec2.ZERO.offset 108 (PHI * 150) ≠ Vec2.ZERO.offset 36 (PHI * 150) := by
  have h := offPhi_ne 36
  rw [show (36:ℝ) + 72 = 108 by norm_num] at h
  exact h.symm

theorem kloc_180_108 :
    Vec2.ZERO.offset 180 (PHI * 150) ≠ Vec2.ZERO.offset 108 (PHI * 150) := by
  have h := offPhi_ne 108
  rw [show (108:ℝ) + 72 = 180 by norm_num] at h
  exact h.symm

theorem kloc_252_180 :
    Vec2.ZERO.offset 252 (PHI * 150) ≠ Vec2.ZERO.offset 180 (PHI * 150) := by
  have h := offPhi_ne 180
  rw [show (180:ℝ) + 72 = 252 by norm_num] at h
  exact h.symm

theorem kloc_324_252 :
    Vec2.ZERO.offset 324 (PHI * 150) ≠ Vec2.ZERO.offset 252 (PHI * 150) := by
  have h := offPhi_ne 252
  rw [show (252:ℝ) + 72 = 324 by norm_num] at h
  exact h.symm

theorem kloc_36_324 :
    Vec2.ZERO.offset 36 (PHI * 150) ≠ Vec2.ZERO.offset 324 (PHI * 150) := by
  have h := offPhi_ne 324
  rw [show (324:ℝ) + 72 = 36 + 360 by norm_num, offset_add_360] at h
  exact h.symm

theorem childList_of_ok (t : Tile) (l : List Tile)
    (h : t.inflate = Except.ok l) : t.childList = l := by
  unfold Tile.childList
  rw [h]

theorem dart_injEq (p : Vec2) (h s : ℝ) (p2 : Vec2) (h2 s2 : ℝ) :
    dart p h s = dart p2 h2 s2 ↔ p = p2 ∧ h = h2 ∧ s = s2 := by
  unfold dart
  rw [Tile.mk.injEq]
  simp

theorem kite_injEq (p : Vec2) (h s : ℝ) (p2 : Vec2) (h2 s2 : ℝ) :
    kite p h s = kite p2 h2 s2 ↔ p = p2 ∧ h = h2 ∧ s = s2 := by
  unfold kite
  rw [Tile.mk.injEq]
  simp

theorem dart_ne_kite (p : Vec2) (h s : ℝ) (p2 : Vec2) (h2 s2 : ℝ) :
    dart p h s ≠ kite p2 h2 s2 := by
  unfold dart kite
  rw [Ne, Tile.mk.injEq]
  intro hc
  exact KITE_ne_DART hc.1.symm

theorem kite_ne_dart (p : Vec2) (h s : ℝ) (p2 : Vec2) (h2 s2 : ℝ) :
    kite p h s ≠ dart p2 h2 s2 := by
  unfold dart kite
  rw [Ne, Tile.mk.injEq]
  intro hc
  exact KITE_ne_DART hc.1

theorem kite_an1 (t : Tile) (hk : t.shape = KITE) :
    t.an 1 = mod360 (t.heading + 72) := by
  unfold Tile.an
  rw [hk]
  show mod360 (t.heading + (72 + 0)) = mod360 (t.heading + 72)
  norm_num

theorem kite_an3 (t : Tile) (hk : t.shape = KITE) :
    t.an 3 = mod360 (t.heading + 288) := by
  unfold Tile.an
  rw [hk]
  show mod360 (t.heading + (72 + (72 + (144 + 0)))) = mod360 (t.heading + 288)
  norm_num

theorem sun_child0 :
    (kite Vec2.ZERO 0 150).childList =
      [dart Vec2.ZERO 324 (150 / PHI),
       dart Vec2.ZERO 36 (150 / PHI),
       kite (Vec2.ZERO.offset 108 (PHI * 150)) 108 (150 / PHI),
       kite (Vec2.ZERO.offset 180 (PHI * 150)) 252 (150 / PHI)] := by
  rw [childList_of_ok _ _ (inflate_kite_children _ rfl), points_getD0,
    kite_point1 _ rfl, kite_point3 _ rfl, kite_an1 _ rfl, kite_an3 _ rfl]
  norm_num [kite, dart, mod360_mod360_add, mod360_mod360_sub, mod360_neg36,
    mod360_36, mod360_108, mod360_180, mod360_252, mod360_324, mod360_396,
    mod360_468, mod360_540]

theorem sun_child1 :
    (kite Vec2.ZERO 72 150).childList =
      [dart Vec2.ZERO 36 (150 / PHI),
       dart Vec2.ZERO 108 (150 / PHI),
       kite (Vec2.ZERO.offset 180 (PHI * 150)) 180 (150 / PHI),
       kite (Vec2.ZERO.offset 252 (PHI * 150)) 324 (150 / PHI)] := by
  rw [childList_of_ok _ _ (inflate_kite_children _ rfl), points_getD0,
    kite_point1 _ rfl, kite_point3 _ rfl, kite_an1 _ rfl, kite_an3 _ rfl]
  norm_num [kite, dart, mod360_mod360_add, mod360_mod360_sub, mod360_neg36,
    mod360_36, mod360_108, mod360_180, mod360_252, mod360_324, mod360_396,
    mod360_468, mod360_540]

theorem sun_child2 :
    (kite Vec2.ZERO 144 150).childList =
      [dart Vec2.ZERO 108 (150 / PHI),
       dart Vec2.ZERO 180 (150 / PHI),
       kite (Vec2.ZERO.offset 252 (PHI * 150)) 252 (150 / PHI),
       kite (Vec2.ZERO.offset 324 (PHI * 150)) 36 (150 / PHI)] := by
  rw [childList_of_ok _ _ (inflate_kite_children _ rfl), points_getD0,
    kite_point1 _ rfl, kite_point3 _ rfl, kite_an1 _ rfl, kite_an3 _ rfl]
  norm_num [kite, dart, mod360_mod360_add, mod360_mod360_sub, mod360_neg36,
    mod360_36, mod360_108, mod360_180, mod360_252, mod360_324, mod360_396,
    mod360_468, mod360_540]

theorem sun_child3 :
    (kite Vec2.ZERO 216 150).childList =
      [dart Vec2.ZERO 180 (150 / PHI),
       dart Vec2.ZERO 252 (150 / PHI),
       kite (Vec2.ZERO.offset 324 (PHI * 150)) 324 (150 / PHI),
       kite (Vec2.ZERO.offset 36 (PHI * 150)) 108 (150 / PHI)] := by
  rw [childList_of_ok _ _ (inflate_kite_children _ rfl), points_getD0,
    kite_point1 _ rfl, kite_point3 _ rfl, kite_an1 _ rfl, kite_an3 _ rfl]
  norm_num [kite, dart, mod360_mod360_add, mod360_mod360_sub, mod360_neg36,
    mod360_36, mod360_108, mod360_180, mod360_252, mod360_324, mod360_396,
    mod360_468, mod360_540]

theorem sun_child4 :
    (kite Vec2.ZERO 288 150).childList =
      [dart Vec2.ZERO 252 (150 / PHI),
       dart Vec2.ZERO 324 (150 / PHI),
       kite (Vec2.ZERO.offset 36 (PHI * 150)) 36 (150 / PHI),
       kite (Vec2.ZERO.offset 108 (PHI * 150)) 180 (150 / PHI)] := by
  rw [childList_of_ok _ _ (inflate_kite_children _ rfl), points_getD0,
    kite_point1 _ rfl, kite_point3 _ rfl, kite_an1 _ rfl, kite_an3 _ rfl]
  norm_num [kite, dart, mod360_mod360_add, mod360_mod360_sub, mod360_neg36,
    mod360_36, mod360_108, mod360_180, mod360_252, mod360_324, mod360_396,
    mod360_468, mod360_540]

/-- The 15 distinct tiles of one round of inflation of the SUN seed:
5 darts at the shared apex and 10 kites. -/
def sunRound1List : List Tile :=
  [dart Vec2.ZERO 324 (150 / PHI),
   dart Vec2.ZERO 36 (150 / PHI),
   dart Vec2.ZERO 108 (150 / PHI),
   dart Vec2.ZERO 180 (150 / PHI),
   dart Vec2.ZERO 252 (150 / PHI),
   kite (Vec2.ZERO.offset 108 (PHI * 150)) 108 (150 / PHI),
   kite (Vec2.ZERO.offset 36 (PHI * 150)) 108 (150 / PHI),
   kite (Vec2.ZERO.offset 180 (PHI * 150)) 180 (150 / PHI),
   kite (Vec2.ZERO.offset 108 (PHI * 150)) 180 (150 / PHI),
   kite (Vec2.ZERO.offset 252 (PHI * 150)) 252 (150 / PHI),
   kite (Vec2.ZERO.offset 180 (PHI * 150)) 252 (150 / PHI),
   kite (Vec2.ZERO.offset 324 (PHI * 150)) 324 (150 / PHI),
   kite (Vec2.ZERO.offset 252 (PHI * 150)) 324 (150 / PHI),
   kite (Vec2.ZERO.offset 36 (PHI * 150)) 36 (150 / PHI),
   kite (Vec2.ZERO.offset 324 (PHI * 150)) 36 (150 / PHI)]

/-- The deduplicated result of one round of inflation of the SUN seed. -/
def sunRound1 : Finset Tile := sunRound1List.toFinset

theorem inflate_SUN_eq : inflate SUN = Except.ok sunRound1 := by
  have hcond : ∀ t ∈ SUN, ∃ l, t.inflate = Except.ok l := by
    intro t ht
    simp only [SUN, Finset.mem_insert, Finset.mem_singleton] at ht
    rcases ht with h | h | h | h | h <;> subst h <;>
      exact ⟨_, inflate_kite_children _ rfl⟩
  unfold inflate
  rw [if_pos hcond]
  congr 1
  apply Finset.ext
  intro a
  simp only [SUN, Finset.biUnion_insert, Finset.singleton_biUnion, sun_child0,
    sun_child1, sun_child2, sun_child3, sun_child4, List.toFinset_cons,
    List.toFinset_nil, insert_emptyc_eq, Finset.mem_union, Finset.mem_insert,
    Finset.mem_singleton, sunRound1, sunRound1List]
  generalize (a = dart Vec2.ZERO 324 (150 / PHI)) = A1
  generalize (a = dart Vec2.ZERO 36 (150 / PHI)) = A2
  generalize (a = dart Vec2.ZERO 108 (150 / PHI)) = A3
  generalize (a = dart Vec2.ZERO 180 (150 / PHI)) = A4
  generalize (a = dart Vec2.ZERO 252 (150 / PHI)) = A5
  generalize (a = kite (Vec2.ZERO.offset 108 (PHI * 150)) 108 (150 / PHI)) = A6
  generalize (a = kite (Vec2.ZERO.offset 36 (PHI * 150)) 108 (150 / PHI)) = A7
  generalize (a = kite (Vec2.ZERO.offset 180 (PHI * 150)) 180 (150 / PHI)) = A8
  generalize (a = kite (Vec2.ZERO.offset 108 (PHI * 150)) 180 (150 / PHI)) = A9
  generalize (a = kite (Vec2.ZERO.offset 252 (PHI * 150)) 252 (150 / PHI)) = A10
  generalize (a = kite (Vec2.ZERO.offset 180 (PHI * 150)) 252 (150 / PHI)) = A11
  generalize (a = kite (Vec2.ZERO.offset 324 (PHI * 150)) 324 (150 / PHI)) = A12
  generalize (a = kite (Vec2.ZERO.offset 252 (PHI * 150)) 324 (150 / PHI)) = A13
  generalize (a = kite (Vec2.ZERO.offset 36 (PHI * 150)) 36 (150 / PHI)) = A14
  generalize (a = kite (Vec2.ZERO.offset 324 (PHI * 150)) 36 (150 / PHI)) = A15
  tauto

set_option maxHeartbeats 1000000 in
theorem sunRound1_nodup : sunRound1List.Nodup := by
  norm_num [sunRound1List, List.nodup_cons, List.mem_cons, dart_injEq,
    kite_injEq, dart_ne_kite, kite_ne_dart, kloc_108_36, kloc_180_108,
    kloc_252_180, kloc_324_252, kloc_36_324]

theorem sunRound1_card : sunRound1.card = 15 := by
  unfold sunRound1
  rw [List.toFinset_card_of_nodup sunRound1_nodup]
  rfl

/-- C4 counterexample: one round of inflation of the SUN seed does not
produce a 16-tile collection. -/
theorem sun_round_card_cex :
    ¬ ∃ S, inflate SUN = Except.ok S ∧ S.card = 16 := by
  rintro ⟨S, hS, hc⟩
  rw [inflate_SUN_eq] at hS
  injection hS with h
  subst h
  rw [sunRound1_card] at hc
  norm_num at hc

/-- C4 (amended): one round of inflation of the SUN seed yields a
deduplicated collection of exactly 15 tiles (5 shared darts at the apex
plus 10 kites), strictly smaller than the 20 children generated. -/
theorem sun_round_card :
    ∃ S, inflate SUN = Except.ok S ∧ S.card = 15 ∧ S.card < 20 :=
  ⟨sunRound1, inflate_SUN_eq, sunRound1_card, by rw [sunRound1_card]; norm_num⟩

/-- C10 helper: a good tile inflates successfully into good children,
four of them for a kite, three for a dart. -/
theorem good_children (t : Tile) (hg : GoodTile t) :
    ∃ l, t.inflate = Except.ok l ∧ (∀ c ∈ l, GoodTile c) ∧
      (t.shape = KITE → l.length = 4) ∧ (t.shape = DART → l.length = 3) := by
  have hscale : 0 < t.scale / PHI := div_pos hg.2 PHI_pos
  rcases hg.1 with hk | hd
  · refine ⟨_, inflate_kite_children t hk, ?_, fun _ => rfl, fun hdd => ?_⟩
    · intro c hc
      simp only [List.mem_cons, List.not_mem_nil, or_false] at hc
      rcases hc with h | h | h | h <;> subst h
      · exact ⟨Or.inr rfl, hscale⟩
      · exact ⟨Or.inr rfl, hscale⟩
      · exact ⟨Or.inl rfl, hscale⟩
      · exact ⟨Or.inl rfl, hscale⟩
    · exact absurd (hk.symm.trans hdd) KITE_ne_DART
  · refine ⟨_, inflate_dart_children t hd, ?_, fun hkk => ?_, fun _ => rfl⟩
    · intro c hc
      simp only [List.mem_cons, List.not_mem_nil, or_false] at hc
      rcases hc with h | h | h <;> subst h
      · exact ⟨Or.inl rfl, hscale⟩
      · exact ⟨Or.inr rfl, hscale⟩
      · exact ⟨Or.inr rfl, hscale⟩
    · exact absurd (hkk.symm.trans hd) KITE_ne_DART

/-- C10 helper: the driver preserves goodness across one round. -/
theorem inflate_preserves_good (S : Finset Tile) (hS : ∀ t ∈ S, GoodTile t) :
    ∃ R, inflate S = Except.ok R ∧ ∀ t ∈ R, GoodTile t := by
  have hcond : ∀ t ∈ S, ∃ l, t.inflate = Except.ok l := by
    intro t ht
    obtain ⟨l, hl, -, -, -⟩ := good_children t (hS t ht)
    exact ⟨l, hl⟩
  refine ⟨S.biUnion fun t => t.childList.toFinset, ?_, ?_⟩
  · unfold inflate
    rw [if_pos hcond]
  · intro c hc
    rw [Finset.mem_biUnion] at hc
    obtain ⟨t, ht, hct⟩ := hc
    rw [List.mem_toFinset] at hct
    obtain ⟨l, hl, hgood, -, -⟩ := good_children t (hS t ht)
    have hcl : t.childList = l := by
      unfold Tile.childList
      rw [hl]
    rw [hcl] at hct
    exact hgood c hct

/-- C10 helper: every round of inflation from a good seed succeeds and
keeps every tile good. -/
theorem iterate_good (seed : Finset Tile) (hseed : ∀ t ∈ seed, GoodTile t) :
    ∀ n : Nat, ∃ S, iterate seed n = Except.ok S ∧ ∀ t ∈ S, GoodTile t := by
  intro n
  induction n with
  | zero => exact ⟨seed, rfl, hseed⟩
  | succ n ih =>
    obtain ⟨S, hS, hgood⟩ := ih
    obtain ⟨R, hR, hgoodR⟩ := inflate_preserves_good S hgood
    refine ⟨R, ?_, hgoodR⟩
    show (iterate seed n).bind inflate = Except.ok R
    rw [hS]
    exact hR

theorem SUN_good : ∀ t ∈ SUN, GoodTile t := by
  intro t ht
  simp only [SUN, Finset.mem_insert, Finset.mem_singleton] at ht
  rcases ht with h | h | h | h | h <;> subst h <;>
    exact ⟨Or.inl rfl, by show (0:ℝ) < 150; norm_num⟩

theorem STAR_good : ∀ t ∈ STAR, GoodTile t := by
  intro t ht
  simp only [STAR, Finset.mem_insert, Finset.mem_singleton] at ht
  rcases ht with h | h | h | h | h <;> subst h <;>
    exact ⟨Or.inr rfl, by show (0:ℝ) < 150; norm_num⟩

/-- C10: every tile reachable from the SUN or STAR seed by iterated
inflation keeps a kite or dart shape and a strictly positive scale, so
the invalid-shape branch is unreachable: every round succeeds, each kite
contributing 4 children and each dart 3. -/
theorem seed_inflation_invariant :
    ∀ n : Nat, ∀ seed : Finset Tile, seed = SUN ∨ seed = STAR →
      ∃ S, iterate seed n = Except.ok S ∧ ∀ t ∈ S, GoodTile t ∧
        ∃ l, t.inflate = Except.ok l ∧
          (t.shape = KITE → l.length = 4) ∧
          (t.shape = DART → l.length = 3) := by
  intro n seed hseed
  have hgood : ∀ t ∈ seed, GoodTile t := by
    rcases hseed with h | h <;> subst h
    · exact SUN_good
    · exact STAR_good
  obtain ⟨S, hS, hSgood⟩ := iterate_good seed hgood n
  refine ⟨S, hS, fun t ht => ?_⟩
  obtain ⟨l, hl, -, hk, hd⟩ := good_children t (hSgood t ht)
  exact ⟨hSgood t ht, l, hl, hk, hd⟩

/-- C10 witness: the invariant extracted at round 0 of the SUN seed, for
the concrete first seed kite. -/
theorem seed_inflation_invariant_witness :
    GoodTile (kite Vec2.ZERO 0 150) ∧
      ∃ l, (kite Vec2.ZERO 0 150).inflate = Except.ok l ∧
        ((kite Vec2.ZERO 0 150).shape = KITE → l.length = 4) ∧
        ((kite Vec2.ZERO 0 150).shape = DART → l.length = 3) := by
  obtain ⟨S, hS, hall⟩ := seed_inflation_invariant 0 SUN (Or.inl rfl)
  have h1 : (Except.ok SUN : Except String (Finset Tile)) = Except.ok S := hS
  injection h1 with h2
  subst h2
  exact hall (kite Vec2.ZERO 0 150) (by simp [SUN])

/-- C6: iterate(seed, 0) is the seed unchanged, and iterate(seed, n)
applies the driver inflate exactly n times. -/
theorem iterate_applies_inflateN (seed : Finset Tile) :
    iterate seed 0 = Except.ok seed ∧
      ∀ n : Nat, iterate seed n = inflateN n seed := by
  refine ⟨rfl, ?_⟩
  intro n
  induction n with
  | zero => rfl
  | succ n ih =>
    show (iterate seed n).bind inflate = inflateN (n + 1) seed
    rw [ih, inflateN_bind]
    rfl

end Penrose

end
